import Mathlib

/-!
Verification development for the Emerging-Sys-Arch repository, which contains
two small embedded controllers built on finite state machines:

* `Milestone35.py` — a Morse-code beacon (`CWMachine`): states
  `off, dot, dash, dotDashPause, letterPause, wordPause`, declarative
  transition events (`doDot`, `doDash`, `doDDP`, `doLP`, `doWP`, `goOff`),
  timed entry actions, a transmission loop, and a button-driven message toggle.
* `Thermostat.py` — a thermostat (`TemperatureMachine`): states
  `off, heat, cool`, a cyclic `cycle` event, LED logic `updateLights`,
  and a background display/serial worker `manageMyDisplay`.

The definitions below are shallow embeddings of the corresponding Python
code; timed holds are modelled as rational durations, the display/serial
worker as explicit counter sequences, and the transmission loop as a trace
of fired events and terminate-flag polls.
-/

/-- States of the beacon automaton (`CWMachine`, `Milestone35.py` lines 51-56).
`off` is the initial state. -/
inductive CWState
  | off
  | dot
  | dash
  | dotDashPause
  | letterPause
  | wordPause
  deriving DecidableEq, Repr, Fintype

/-- Events of the beacon automaton: the declarative transitions defined in
`Milestone35.py` lines 70-103. -/
inductive CWEvent
  | doDot
  | doDash
  | doDDP
  | doLP
  | doWP
  | goOff
  deriving DecidableEq, Repr, Fintype

/-- Result of firing an event: either the new state, or the error produced by
the state-machine library when no transition matches (`TransitionNotAllowed`,
called `InvalidTransition` in the design spec). -/
inductive FireResult
  | ok (s : CWState)
  | invalidTransition
  deriving DecidableEq, Repr

/-- Transition table of `CWMachine`, transcribed from the event declarations in
`Milestone35.py` lines 70-103:
`doDot = off.to(dot) | dot.to(off)`, `doDash = off.to(dash) | dash.to(off)`,
`doDDP = off.to(dotDashPause) | dot.to(dotDashPause) | dash.to(dotDashPause) | dotDashPause.to(off)`,
`doLP = off.to(letterPause) | dotDashPause.to(letterPause) | letterPause.to(off)`,
`doWP = off.to(wordPause) | letterPause.to(wordPause) | wordPause.to(off)`,
`goOff = dot.to(off) | dash.to(off) | dotDashPause.to(off) | letterPause.to(off) | wordPause.to(off)`.
A pair with no declared transition yields `invalidTransition`. -/
def fire : CWState → CWEvent → FireResult
  | .off, .doDot => .ok .dot
  | .dot, .doDot => .ok .off
  | .off, .doDash => .ok .dash
  | .dash, .doDash => .ok .off
  | .off, .doDDP => .ok .dotDashPause
  | .dot, .doDDP => .ok .dotDashPause
  | .dash, .doDDP => .ok .dotDashPause
  | .dotDashPause, .doDDP => .ok .off
  | .off, .doLP => .ok .letterPause
  | .dotDashPause, .doLP => .ok .letterPause
  | .letterPause, .doLP => .ok .off
  | .off, .doWP => .ok .wordPause
  | .letterPause, .doWP => .ok .wordPause
  | .wordPause, .doWP => .ok .off
  | .dot, .goOff => .ok .off
  | .dash, .goOff => .ok .off
  | .dotDashPause, .goOff => .ok .off
  | .letterPause, .goOff => .ok .off
  | .wordPause, .goOff => .ok .off
  | _, _ => .invalidTransition

/-- Entry-action hold durations in time-units, from the `sleep` calls of the
`on_enter_*` handlers (`Milestone35.py` lines 105-136): dot 0.5, dash 1.5,
dot/dash pause 0.25, letter pause 0.75, word pause 3. The `off` state has no
entry handler, hence no hold. -/
def enterHold : CWState → ℚ
  | .off => 0
  | .dot => 1/2
  | .dash => 3/2
  | .dotDashPause => 1/4
  | .letterPause => 3/4
  | .wordPause => 3

/-- First configured beacon message (`Milestone35.py` line 46). -/
def message1 : String := "SOS"

/-- Second configured beacon message (`Milestone35.py` line 47). -/
def message2 : String := "OK"

/-- Model of `CWMachine.toggleMessage` (`Milestone35.py` lines 138-141):
`activeMessage = message2 if activeMessage == message1 else message1`. -/
def toggleMessage (m : String) : String :=
  if m = message1 then message2 else message1

/-- C1 counterexample: the claim says firing the dot event from state `dot`
(without an intervening idle-return) yields an `InvalidTransition` error and
performs no transition.  In the code, `doDot = off.to(dot) | dot.to(off)`
(`Milestone35.py` lines 70-72), so firing `doDot` from `dot` is a legal
transition to `off` and no error is raised. -/
theorem c1_dot_from_dot_counterexample :
    fire CWState.dot CWEvent.doDot = FireResult.ok CWState.off ∧
    fire CWState.dot CWEvent.doDot ≠ FireResult.invalidTransition := by
  decide

/-- C1 amended: firing `doDot` from `off` transitions to `dot`; firing the
idle-return event `goOff` from `dot` returns to `off`; and firing `doDot`
again from `dot` (without an intervening idle-return) is also a legal
transition, taking the machine back to `off` rather than raising
`InvalidTransition`. -/
theorem c1_dot_cycle_amended :
    fire CWState.off CWEvent.doDot = FireResult.ok CWState.dot ∧
    fire CWState.dot CWEvent.goOff = FireResult.ok CWState.off ∧
    fire CWState.dot CWEvent.doDot = FireResult.ok CWState.off := by
  decide

/-- C7: the timed holds of the beacon states are dot = 0.5, dash = 1.5
(so dash is exactly 3 times dot), dot/dash pause = 0.25, letter pause = 0.75,
and word pause = 3.0 time-units. -/
theorem c7_hold_durations :
    enterHold CWState.dot = 1/2 ∧
    enterHold CWState.dash = 3/2 ∧
    enterHold CWState.dash = 3 * enterHold CWState.dot ∧
    enterHold CWState.dotDashPause = 1/4 ∧
    enterHold CWState.letterPause = 3/4 ∧
    enterHold CWState.wordPause = 3 := by
  refine ⟨rfl, rfl, by norm_num [enterHold], rfl, rfl, rfl⟩

/-- C8: the universal idle-return event `goOff` is legal from every non-idle
beacon state and always transitions the automaton to `off`; the
`InvalidTransition` branch is unreachable for this event whenever the current
state is not `off` (`Milestone35.py` lines 97-103). -/
theorem c8_goOff_universal (s : CWState) (h : s ≠ CWState.off) :
    fire s CWEvent.goOff = FireResult.ok CWState.off := by
  cases s
  · exact absurd rfl h
  all_goals rfl

/-- Witness for C8 at the concrete state `dot`. -/
theorem c8_goOff_universal_witness :
    fire CWState.dot CWEvent.goOff = FireResult.ok CWState.off :=
  c8_goOff_universal CWState.dot (by decide)

/-- C10: whenever the active message is one of the two configured messages
(`SOS` or `OK`), `toggleMessage` sets it to the other one; the active message
stays in the two-element set, and two consecutive toggles restore the
original message. -/
theorem c10_toggleMessage_involution (m : String)
    (h : m = message1 ∨ m = message2) :
    (toggleMessage m = message1 ∨ toggleMessage m = message2) ∧
    toggleMessage (toggleMessage m) = m ∧
    toggleMessage m ≠ m := by
  rcases h with h | h <;> subst h <;> decide

/-- Witness for C10 at the concrete message `SOS`. -/
theorem c10_toggleMessage_involution_witness :
    (toggleMessage "SOS" = message1 ∨ toggleMessage "SOS" = message2) ∧
    toggleMessage (toggleMessage "SOS") = "SOS" ∧
    toggleMessage "SOS" ≠ "SOS" :=
  c10_toggleMessage_involution "SOS" (Or.inl rfl)

/-- States of the thermostat automaton (`TemperatureMachine`, `Thermostat.py`
lines 88-90). `off` is the initial state. -/
inductive TState
  | off
  | heat
  | cool
  deriving DecidableEq, Repr, Fintype

/-- The `cycle` event of the thermostat ring,
`cycle = off.to(heat) | heat.to(cool) | cool.to(off)` (`Thermostat.py`
line 96). It is total on the three states, so it is modelled as a function. -/
def cycle : TState → TState
  | .off => .heat
  | .heat => .cool
  | .cool => .off

/-- State identifier string (`current_state.id` of the state-machine library),
used by `updateLights` and `setupSerialOutput`. -/
def stateId : TState → String
  | .off => "off"
  | .heat => "heat"
  | .cool => "cool"

/-- Output mode of one PWM LED as commanded by `updateLights`: off, steady on
(`led.on()`), or pulsing (`led.pulse(fade_in_time=1, fade_out_time=1)`). -/
inductive LightMode
  | inactive
  | steadyOn
  | pulsing
  deriving DecidableEq, Repr

/-- Commands issued to the two indicator LEDs (red = heat, blue = cool). -/
structure LightCmd where
  red : LightMode
  blue : LightMode
  deriving DecidableEq, Repr

/-- Celsius-to-Fahrenheit conversion of `TemperatureMachine.getFahrenheit`
(`Thermostat.py` lines 166-169): `((9/5)*c) + 32`. -/
def getFahrenheit (c : ℚ) : ℚ := 9 / 5 * c + 32

/-- Model of `TemperatureMachine.updateLights` (`Thermostat.py` lines 142-163)
as a function of the current state, the sensor reading in Celsius, and the
setpoint. The code first turns both LEDs off, floors the Fahrenheit
temperature, then in `heat` pulses the red LED if `temp < setPoint` else
holds it on; in `cool` pulses the blue LED if `temp > setPoint` else holds it
on; in `off` it leaves both LEDs off. -/
def updateLights (st : TState) (c : ℚ) (setPoint : ℤ) : LightCmd :=
  let temp : ℤ := ⌊getFahrenheit c⌋
  match st with
  | .heat =>
      if temp < setPoint then ⟨LightMode.pulsing, LightMode.inactive⟩
      else ⟨LightMode.steadyOn, LightMode.inactive⟩
  | .cool =>
      if temp > setPoint then ⟨LightMode.inactive, LightMode.pulsing⟩
      else ⟨LightMode.inactive, LightMode.steadyOn⟩
  | .off => ⟨LightMode.inactive, LightMode.inactive⟩

/-- One update of the display-alternation counter in
`TemperatureMachine.manageMyDisplay` (`Thermostat.py` lines 190-201): the
branch `altCounter < 6` renders the temperature line, the `else` branch
renders the mode line and resets the counter to 1 when `altCounter >= 11`;
afterwards the counter is incremented. -/
def altNext (a : ℕ) : ℕ :=
  if a < 6 then a + 1 else (if 11 ≤ a then 1 else a) + 1

/-- Value of `altCounter` at the start of tick `n + 1` (ticks are numbered
from 1; `altSeq 0 = 1` is the initial value `altCounter = 1`,
`Thermostat.py` line 182). -/
def altSeq : ℕ → ℕ
  | 0 => 1
  | n + 1 => altNext (altSeq n)

/-- Content kind of the second LCD line rendered in one tick. -/
inductive Line2
  | tempLine
  | modeLine
  deriving DecidableEq, Repr

/-- Second-line content chosen by the branch `if altCounter < 6`
(`Thermostat.py` lines 190-195): the temperature line when the counter is
below 6, otherwise the mode-plus-setpoint line. -/
def line2OfAlt (a : ℕ) : Line2 :=
  if a < 6 then .tempLine else .modeLine

/-- Second LCD line rendered at tick `t` (for `t ≥ 1`). -/
def lineAtTick (t : ℕ) : Line2 := line2OfAlt (altSeq (t - 1))

/-- One update of the serial counter in `manageMyDisplay` (`Thermostat.py`
lines 204-208): when `counter % 30 == 0` a record is emitted and the counter
resets to 1, otherwise the counter is incremented. -/
def serialNext (c : ℕ) : ℕ :=
  if c % 30 = 0 then 1 else c + 1

/-- Value of `counter` at the start of tick `n + 1` (`serialSeq 0 = 1` is the
initial value `counter = 1`, `Thermostat.py` line 181). -/
def serialSeq : ℕ → ℕ
  | 0 => 1
  | n + 1 => serialNext (serialSeq n)

/-- Whether a serial record is emitted at tick `t` (for `t ≥ 1`): the
condition `counter % 30 == 0` of `Thermostat.py` line 204. -/
def emitAtTick (t : ℕ) : Bool := serialSeq (t - 1) % 30 == 0

/-- Model of `TemperatureMachine.setupSerialOutput` (`Thermostat.py` lines
172-174): the comma-separated status string
`current_state.id , floor(fahrenheit) , setPoint`. -/
def setupSerialOutput (st : TState) (c : ℚ) (setPoint : ℤ) : String :=
  stateId st ++ "," ++ toString ⌊getFahrenheit c⌋ ++ "," ++ toString setPoint

/-- Serial record as written on the wire (`Thermostat.py` line 205):
`setupSerialOutput` followed by a newline. -/
def serialRecord (st : TState) (c : ℚ) (setPoint : ℤ) : String :=
  setupSerialOutput st c setPoint ++ "\n"

/-- Closed form of the serial counter: it cycles 1, 2, ..., 30, 1, 2, ... -/
theorem serialSeq_eq (n : ℕ) : serialSeq n = n % 30 + 1 := by
  induction n with
  | zero => rfl
  | succ n ih =>
      rw [serialSeq, ih, serialNext]
      split <;> omega

/-- C6: firing the cycle event follows the ring off→heat→cool→off, and firing
cycle exactly 3 times returns the automaton to its original state, for every
starting state in the ring. -/
theorem c6_cycle_ring :
    cycle TState.off = TState.heat ∧
    cycle TState.heat = TState.cool ∧
    cycle TState.cool = TState.off ∧
    ∀ s : TState, cycle (cycle (cycle s)) = s := by
  refine ⟨rfl, rfl, rfl, ?_⟩
  intro s
  cases s <;> rfl

/-- C5: in state `heat`, `updateLights` pulses the heat indicator when the
floored temperature is strictly below the setpoint and holds it steady on
when it is at or above the setpoint (equality counts as not below); in state
`cool` it mirrors this with the cool indicator and an above-setpoint
comparison; in state `off` both indicators are inactive regardless of
temperature. -/
theorem c5_updateLights (c : ℚ) (sp : ℤ) :
    (⌊getFahrenheit c⌋ < sp →
      updateLights TState.heat c sp = ⟨LightMode.pulsing, LightMode.inactive⟩) ∧
    (sp ≤ ⌊getFahrenheit c⌋ →
      updateLights TState.heat c sp = ⟨LightMode.steadyOn, LightMode.inactive⟩) ∧
    (sp < ⌊getFahrenheit c⌋ →
      updateLights TState.cool c sp = ⟨LightMode.inactive, LightMode.pulsing⟩) ∧
    (⌊getFahrenheit c⌋ ≤ sp →
      updateLights TState.cool c sp = ⟨LightMode.inactive, LightMode.steadyOn⟩) ∧
    updateLights TState.off c sp = ⟨LightMode.inactive, LightMode.inactive⟩ := by
  refine ⟨fun h => ?_, fun h => ?_, fun h => ?_, fun h => ?_, rfl⟩ <;>
    simp only [updateLights] <;> split <;> first | rfl | omega

/-- Witness for C5 at the concrete reading 20 °C (floored 68 °F) against
setpoint 72 (below: pulsing) and setpoint 60 (at or above: steady on). -/
theorem c5_updateLights_witness :
    updateLights TState.heat 20 72 = ⟨LightMode.pulsing, LightMode.inactive⟩ ∧
    updateLights TState.heat 20 60 = ⟨LightMode.steadyOn, LightMode.inactive⟩ :=
  ⟨(c5_updateLights 20 72).1 (by norm_num [getFahrenheit]),
   (c5_updateLights 20 60).2.1 (by norm_num [getFahrenheit])⟩

/-- Periodicity of the display-alternation counter: from the second tick on
(indices `n ≥ 1`), the counter repeats with period 10. -/
theorem altSeq_periodic (n : ℕ) (h : 1 ≤ n) : altSeq (n + 10) = altSeq n := by
  induction n, h using Nat.le_induction with
  | base => decide
  | succ n hn ih =>
      have hs : n + 1 + 10 = n + 10 + 1 := by omega
      rw [hs, altSeq, ih]
      rfl

/-- C3 counterexample: the claim says the second display line alternates with
a period of exactly 5 ticks forever, which would make tick 11 a temperature
tick (as tick 1 is). In the code the `else` branch of `altCounter < 6`
renders the mode line *before* the `altCounter >= 11` reset, so tick 11
(counter value 11) renders the mode line, giving a 6-tick mode phase. -/
theorem c3_period_counterexample :
    lineAtTick 11 = Line2.modeLine ∧
    lineAtTick 1 = Line2.tempLine ∧
    Line2.modeLine ≠ Line2.tempLine := by
  decide

/-- C3 amended: ticks 1-5 render the temperature line and ticks 6-11 render
the mode-plus-setpoint line (six mode ticks, because the reset at counter 11
happens after rendering); the counter is 11 at tick 11 and, after the reset
and the unconditional increment, 2 at tick 12; from tick 2 onward the
alternation repeats with period 10 (4 temperature ticks, then 6 mode ticks),
not with period 5. -/
theorem c3_display_alternation_amended :
    (∀ t, 1 ≤ t → t ≤ 5 → lineAtTick t = Line2.tempLine) ∧
    (∀ t, 6 ≤ t → t ≤ 11 → lineAtTick t = Line2.modeLine) ∧
    altSeq 10 = 11 ∧
    altSeq 11 = 2 ∧
    (∀ t, 2 ≤ t → lineAtTick (t + 10) = lineAtTick t) := by
  refine ⟨?_, ?_, by decide, by decide, ?_⟩
  · intro t h1 h2
    interval_cases t <;> decide
  · intro t h1 h2
    interval_cases t <;> decide
  · intro t ht
    show line2OfAlt (altSeq (t + 10 - 1)) = line2OfAlt (altSeq (t - 1))
    rw [show t + 10 - 1 = t - 1 + 10 from by omega,
      altSeq_periodic (t - 1) (by omega)]

/-- Witness for C3 (amended) at the concrete ticks 3 (temperature), 7 (mode)
and 12 (same line as tick 2). -/
theorem c3_display_alternation_amended_witness :
    lineAtTick 3 = Line2.tempLine ∧
    lineAtTick 7 = Line2.modeLine ∧
    lineAtTick 12 = lineAtTick 2 :=
  ⟨c3_display_alternation_amended.1 3 (by decide) (by decide),
   c3_display_alternation_amended.2.1 7 (by decide) (by decide),
   c3_display_alternation_amended.2.2.2.2 2 (by decide)⟩

/-- C4: a serial record is emitted exactly on every 30th tick (the counter,
starting at 1, satisfies `counter % 30 == 0` exactly when the tick number is
a multiple of 30), the counter is reset to 1 immediately after an emission,
and each record is the comma-separated string `mode,temperatureF,setPoint`
terminated by a newline, where `mode` is the state identifier,
`temperatureF` the floored Fahrenheit temperature and `setPoint` the current
setpoint. -/
theorem c4_serial_emission :
    (∀ t, 1 ≤ t → (emitAtTick t = true ↔ t % 30 = 0)) ∧
    (∀ t, 1 ≤ t → emitAtTick t = true → serialSeq t = 1) ∧
    (∀ (st : TState) (c : ℚ) (sp : ℤ),
      serialRecord st c sp =
        stateId st ++ "," ++ toString ⌊getFahrenheit c⌋ ++ "," ++
          toString sp ++ "\n") := by
  refine ⟨?_, ?_, fun st c sp => rfl⟩
  · intro t ht
    simp only [emitAtTick, beq_iff_eq, serialSeq_eq]
    omega
  · intro t ht h
    obtain ⟨n, rfl⟩ : ∃ n, t = n + 1 := ⟨t - 1, by omega⟩
    simp only [emitAtTick, Nat.add_sub_cancel, beq_iff_eq] at h
    rw [serialSeq, serialNext, if_pos h]

/-- Witness for C4 at the concrete tick 30 and the concrete status
(`heat`, 20 °C, setpoint 72). -/
theorem c4_serial_emission_witness :
    (emitAtTick 30 = true ↔ 30 % 30 = 0) ∧
    serialSeq 30 = 1 ∧
    serialRecord TState.heat 20 72 =
      stateId TState.heat ++ "," ++ toString ⌊getFahrenheit 20⌋ ++ "," ++
        toString (72 : ℤ) ++ "\n" :=
  ⟨c4_serial_emission.1 30 (by decide),
   c4_serial_emission.2.1 30 (by decide) (by decide),
   c4_serial_emission.2.2 TState.heat 20 72⟩

/-- Morse code table of `CWMachine.morseDict` (`Milestone35.py` lines 60-68),
mapping the characters A-Z and 0-9 to their dot/dash strings; any other
character is absent from the table. -/
def morseDict : Char → Option String
  | 'A' => some ".-"
  | 'B' => some "-..."
  | 'C' => some "-.-."
  | 'D' => some "-.."
  | 'E' => some "."
  | 'F' => some "..-."
  | 'G' => some "--."
  | 'H' => some "...."
  | 'I' => some ".."
  | 'J' => some ".---"
  | 'K' => some "-.-"
  | 'L' => some ".-.."
  | 'M' => some "--"
  | 'N' => some "-."
  | 'O' => some "---"
  | 'P' => some ".--."
  | 'Q' => some "--.-"
  | 'R' => some ".-."
  | 'S' => some "..."
  | 'T' => some "-"
  | 'U' => some "..-"
  | 'V' => some "...-"
  | 'W' => some ".--"
  | 'X' => some "-..-"
  | 'Y' => some "-.--"
  | 'Z' => some "--.."
  | '0' => some "-----"
  | '1' => some ".----"
  | '2' => some "..---"
  | '3' => some "...--"
  | '4' => some "....-"
  | '5' => some "....."
  | '6' => some "-...."
  | '7' => some "--..."
  | '8' => some "---.."
  | '9' => some "----."
  | _ => none

/-- Observable events of the transmission loop `CWMachine.transmit`
(`Milestone35.py` lines 151-195): a poll of the `endTransmission` terminate
flag (the `while not self.endTransmission` test, line 152) or the firing of a
state-machine event. -/
inductive TraceEv
  | check
  | fired (e : CWEvent)
  deriving DecidableEq, Repr

/-- Number of terminate-flag polls in a trace. -/
def countChecks : List TraceEv → ℕ
  | [] => 0
  | TraceEv.check :: rest => countChecks rest + 1
  | TraceEv.fired _ :: rest => countChecks rest

/-- Whether a trace event is the firing of a signal event (`doDot` or
`doDash`), i.e. the transmission of one Morse symbol. -/
def isSignalFire : TraceEv → Bool
  | TraceEv.fired CWEvent.doDot => true
  | TraceEv.fired CWEvent.doDash => true
  | _ => false

/-- Number of signal (dot/dash) firings in a trace. -/
def countSignals : List TraceEv → ℕ
  | [] => 0
  | e :: rest => (if isSignalFire e then 1 else 0) + countSignals rest

/-- Auxiliary scan for `checksBetweenSignals`: the flag records whether a
signal has been fired with no terminate-flag poll since. -/
def checksBetweenAux : List TraceEv → Bool → Bool
  | [], _ => true
  | TraceEv.check :: rest, _ => checksBetweenAux rest false
  | e :: rest, pending =>
      if isSignalFire e then
        if pending then false else checksBetweenAux rest true
      else
        checksBetweenAux rest pending

/-- Whether every two consecutive signal firings of a trace have a
terminate-flag poll between them. -/
def checksBetweenSignals (tr : List TraceEv) : Bool :=
  checksBetweenAux tr false

/-- Fire one event on the machine, recording it in the trace; a transition
not allowed from the current state raises, aborting the transmission thread
(modelled as `none`). -/
def fireTr (st : CWState) (e : CWEvent) : Option (List TraceEv × CWState) :=
  match fire st e with
  | FireResult.ok st2 => some ([TraceEv.fired e], st2)
  | FireResult.invalidTransition => none

/-- Sequencing of two traced steps: run the first, then run the second from
the resulting state, concatenating the traces. -/
def andThen (o : Option (List TraceEv × CWState))
    (f : CWState → Option (List TraceEv × CWState)) :
    Option (List TraceEv × CWState) :=
  o.bind fun p => (f p.2).map fun q => (p.1 ++ q.1, q.2)

/-- The defensive idle-return of `transmit`
(`if self.current_state != self.off: self.goOff()`, `Milestone35.py`
lines 169-170 and the analogous re-checks at lines 178, 184, 190). -/
def ensureOff (st : CWState) : Option (List TraceEv × CWState) :=
  if st = CWState.off then some ([], st) else fireTr st CWEvent.goOff

/-- Per-symbol action of `transmit` (`Milestone35.py` lines 168-175): return
to `off` if needed, then fire `doDot` on a dot symbol and `doDash` on a dash
symbol. -/
def symbolAction (st : CWState) (s : Char) : Option (List TraceEv × CWState) :=
  andThen (ensureOff st) fun st1 =>
    if s = '.' then fireTr st1 CWEvent.doDot
    else if s = '-' then fireTr st1 CWEvent.doDash
    else some ([], st1)

/-- Intra-character gap of `transmit` (`Milestone35.py` lines 177-180):
return to `off` if needed, then fire `doDDP`. -/
def gapDDP (st : CWState) : Option (List TraceEv × CWState) :=
  andThen (ensureOff st) fun st1 => fireTr st1 CWEvent.doDDP

/-- Inter-character (letter) gap of `transmit` (`Milestone35.py` lines
183-187): return to `off` if needed, then fire `doLP`. -/
def gapLP (st : CWState) : Option (List TraceEv × CWState) :=
  andThen (ensureOff st) fun st1 => fireTr st1 CWEvent.doLP

/-- Inter-word gap of `transmit` (`Milestone35.py` lines 189-193): return to
`off` if needed, then fire `doWP`. -/
def gapWP (st : CWState) : Option (List TraceEv × CWState) :=
  andThen (ensureOff st) fun st1 => fireTr st1 CWEvent.doWP

/-- Innermost loop of `transmit` (`for symbol in morse`, `Milestone35.py`
lines 167-181), carrying `morseCounter` and `lenMorse`: fire the symbol, and
fire the dot/dash pause between symbols while `morseCounter < lenMorse`. -/
def symbolLoop (st : CWState) (syms : List Char) (morseCounter lenMorse : ℕ) :
    Option (List TraceEv × CWState) :=
  match syms with
  | [] => some ([], st)
  | s :: rest =>
      andThen (symbolAction st s) fun st1 =>
        if morseCounter < lenMorse then
          andThen (gapDDP st1) fun st2 =>
            symbolLoop st2 rest (morseCounter + 1) lenMorse
        else
          symbolLoop st1 rest morseCounter lenMorse

/-- Processing of one (already uppercased) character of a word
(`Milestone35.py` lines 163-181): look the character up in `morseDict` with
default `""`, then run the symbol loop over the resulting dot/dash string
with `morseCounter = 1` and `lenMorse = len(morse)`. -/
def charStep (st : CWState) (c : Char) : Option (List TraceEv × CWState) :=
  symbolLoop st ((morseDict c).getD "").toList 1 ((morseDict c).getD "").length

/-- Middle loop of `transmit` (`for char in word.upper()`, `Milestone35.py`
lines 162-187), carrying `wordCounter` and `lenWord`: process each character
and fire the letter pause between characters while `wordCounter < lenWord`. -/
def charLoop (st : CWState) (chars : List Char) (wordCounter lenWord : ℕ) :
    Option (List TraceEv × CWState) :=
  match chars with
  | [] => some ([], st)
  | c :: rest =>
      andThen (charStep st c) fun st1 =>
        if wordCounter < lenWord then
          andThen (gapLP st1) fun st2 =>
            charLoop st2 rest (wordCounter + 1) lenWord
        else
          charLoop st1 rest wordCounter lenWord

/-- Outermost loop of `transmit` (`for word in wordList`, `Milestone35.py`
lines 158-193), carrying `wordsCounter` and `lenWords`: process each word
(uppercased, character loop started at `wordCounter = 1`) and fire the word
pause between words while `wordsCounter < lenWords`. -/
def wordLoop (st : CWState) (ws : List String) (wordsCounter lenWords : ℕ) :
    Option (List TraceEv × CWState) :=
  match ws with
  | [] => some ([], st)
  | w :: rest =>
      andThen (charLoop st (w.toList.map Char.toUpper) 1 w.length) fun st1 =>
        if wordsCounter < lenWords then
          andThen (gapWP st1) fun st2 =>
            wordLoop st2 rest (wordsCounter + 1) lenWords
        else
          wordLoop st1 rest wordsCounter lenWords

/-- Accumulator-based whitespace splitter: `acc` holds the characters of the
current word in reverse; runs of whitespace separate words and produce no
empty fragments. -/
def splitWsAux : List Char → List Char → List String
  | [], acc => if acc = [] then [] else [String.mk acc.reverse]
  | ch :: rest, acc =>
      if ch.isWhitespace then
        if acc = [] then splitWsAux rest []
        else String.mk acc.reverse :: splitWsAux rest []
      else
        splitWsAux rest (ch :: acc)

/-- Word splitting of `activeMessage.split()` (`Milestone35.py` line 154):
split on runs of whitespace, dropping empty fragments, as Python
`str.split()` with no argument does. -/
def pyWords (msg : String) : List String :=
  splitWsAux msg.toList []

/-- One full message pass of `transmit` (`Milestone35.py` lines 153-193):
the word loop over `activeMessage.split()` started at `wordsCounter = 1`
with `lenWords = len(wordList)`. -/
def passTrace (st : CWState) (msg : String) : Option (List TraceEv × CWState) :=
  wordLoop st (pyWords msg) 1 (pyWords msg).length

/-- One iteration of the `while not self.endTransmission` loop of `transmit`
(`Milestone35.py` lines 152-193), started from the idle state: a single poll
of the terminate flag followed by one full message pass. -/
def loopIterTrace (msg : String) : Option (List TraceEv × CWState) :=
  (passTrace CWState.off msg).map fun p => (TraceEv.check :: p.1, p.2)

theorem countChecks_append (a b : List TraceEv) :
    countChecks (a ++ b) = countChecks a + countChecks b := by
  induction a with
  | nil => simp [countChecks]
  | cons e rest ih =>
      cases e
      · simp [countChecks, ih]
        omega
      · simp [countChecks, ih]

theorem andThen_noCheck {o : Option (List TraceEv × CWState)}
    {f : CWState → Option (List TraceEv × CWState)}
    {p : List TraceEv × CWState}
    (ho : ∀ q, o = some q → countChecks q.1 = 0)
    (hf : ∀ st q, f st = some q → countChecks q.1 = 0)
    (h : andThen o f = some p) : countChecks p.1 = 0 := by
  unfold andThen at h
  cases hq : o with
  | none => rw [hq] at h; simp at h
  | some q =>
      rw [hq, Option.some_bind'] at h
      cases hr : f q.2 with
      | none => rw [hr] at h; simp at h
      | some r =>
          rw [hr] at h
          simp only [Option.map_some', Option.some.injEq] at h
          subst h
          rw [countChecks_append, ho q hq, hf q.2 r hr]

theorem fireTr_noCheck (st : CWState) (e : CWEvent) :
    ∀ q, fireTr st e = some q → countChecks q.1 = 0 := by
  intro q h
  unfold fireTr at h
  cases hf : fire st e <;> rw [hf] at h
  · simp only [Option.some.injEq] at h
    subst h
    rfl
  · simp at h

theorem ensureOff_noCheck (st : CWState) :
    ∀ q, ensureOff st = some q → countChecks q.1 = 0 := by
  intro q h
  unfold ensureOff at h
  split at h
  · simp only [Option.some.injEq] at h
    subst h
    rfl
  · exact fireTr_noCheck st CWEvent.goOff q h

theorem symbolAction_noCheck (st : CWState) (s : Char) :
    ∀ q, symbolAction st s = some q → countChecks q.1 = 0 := by
  intro q h
  unfold symbolAction at h
  refine andThen_noCheck (ensureOff_noCheck st) ?_ h
  intro st1 r hr
  split at hr
  · exact fireTr_noCheck st1 CWEvent.doDot r hr
  · split at hr
    · exact fireTr_noCheck st1 CWEvent.doDash r hr
    · simp only [Option.some.injEq] at hr
      subst hr
      rfl

theorem gapDDP_noCheck (st : CWState) :
    ∀ q, gapDDP st = some q → countChecks q.1 = 0 := by
  intro q h
  exact andThen_noCheck (ensureOff_noCheck st)
    (fun st1 => fireTr_noCheck st1 CWEvent.doDDP) h

theorem gapLP_noCheck (st : CWState) :
    ∀ q, gapLP st = some q → countChecks q.1 = 0 := by
  intro q h
  exact andThen_noCheck (ensureOff_noCheck st)
    (fun st1 => fireTr_noCheck st1 CWEvent.doLP) h

theorem gapWP_noCheck (st : CWState) :
    ∀ q, gapWP st = some q → countChecks q.1 = 0 := by
  intro q h
  exact andThen_noCheck (ensureOff_noCheck st)
    (fun st1 => fireTr_noCheck st1 CWEvent.doWP) h

theorem symbolLoop_noCheck (syms : List Char) :
    ∀ st mc lm q, symbolLoop st syms mc lm = some q → countChecks q.1 = 0 := by
  induction syms with
  | nil =>
      intro st mc lm q h
      simp only [symbolLoop, Option.some.injEq] at h
      subst h
      rfl
  | cons s rest ih =>
      intro st mc lm q h
      simp only [symbolLoop] at h
      refine andThen_noCheck (symbolAction_noCheck st s) ?_ h
      intro st1 r hr
      split at hr
      · exact andThen_noCheck (gapDDP_noCheck st1)
          (fun st2 => ih st2 (mc + 1) lm) hr
      · exact ih st1 mc lm r hr

theorem charStep_noCheck (st : CWState) (c : Char) :
    ∀ q, charStep st c = some q → countChecks q.1 = 0 := by
  intro q h
  exact symbolLoop_noCheck _ st 1 _ q h

theorem charLoop_noCheck (chars : List Char) :
    ∀ st wc lw q, charLoop st chars wc lw = some q → countChecks q.1 = 0 := by
  induction chars with
  | nil =>
      intro st wc lw q h
      simp only [charLoop, Option.some.injEq] at h
      subst h
      rfl
  | cons c rest ih =>
      intro st wc lw q h
      simp only [charLoop] at h
      refine andThen_noCheck (charStep_noCheck st c) ?_ h
      intro st1 r hr
      split at hr
      · exact andThen_noCheck (gapLP_noCheck st1)
          (fun st2 => ih st2 (wc + 1) lw) hr
      · exact ih st1 wc lw r hr

theorem wordLoop_noCheck (ws : List String) :
    ∀ st wsc lws q, wordLoop st ws wsc lws = some q → countChecks q.1 = 0 := by
  induction ws with
  | nil =>
      intro st wsc lws q h
      simp only [wordLoop, Option.some.injEq] at h
      subst h
      rfl
  | cons w rest ih =>
      intro st wsc lws q h
      simp only [wordLoop] at h
      refine andThen_noCheck
        (charLoop_noCheck (w.toList.map Char.toUpper) st 1 w.length) ?_ h
      intro st1 r hr
      split at hr
      · exact andThen_noCheck (gapWP_noCheck st1)
          (fun st2 => ih st2 (wsc + 1) lws) hr
      · exact ih st1 wsc lws r hr

theorem passTrace_noCheck (msg : String) (st : CWState) :
    ∀ q, passTrace st msg = some q → countChecks q.1 = 0 := by
  intro q h
  exact wordLoop_noCheck _ st 1 _ q h

/-- C2 counterexample: on the program's own message `SOS`, one iteration of
the transmission loop polls the terminate flag exactly once (at the top of
the `while` loop), fires 9 signal symbols, and has consecutive signal
firings with no poll between them — so the terminate flag is *not* checked
between consecutive symbols, and cancellation latency is not bounded by one
symbol hold. -/
theorem c2_poll_between_symbols_counterexample :
    ((loopIterTrace "SOS").map fun p =>
      (countChecks p.1, countSignals p.1, checksBetweenSignals p.1)) =
      some (1, 9, false) := by
  decide

/-- C2 amended: the terminate flag `endTransmission` is polled exactly once
per full message pass, at the top of the `while` loop, and never inside the
pass (between symbols); hence after the flag is set the loop exits only at
the next pass boundary, so cancellation latency is bounded by the duration
of one full message pass, not by a single symbol hold. -/
theorem c2_poll_once_per_pass_amended (msg : String) :
    ((loopIterTrace msg).map fun p => countChecks p.1) =
      ((loopIterTrace msg).map fun _ => 1) := by
  unfold loopIterTrace
  cases hp : passTrace CWState.off msg with
  | none => rfl
  | some p =>
      simp only [Option.map_some']
      rw [show countChecks (TraceEv.check :: p.1) = countChecks p.1 + 1 from rfl,
        passTrace_noCheck msg CWState.off p hp]

/-- C9: a character (already uppercased by `word.upper()`) that is not in the
Morse table produces the empty dot/dash string via
`morseDict.get(char, "")`, so its symbol loop fires no events and raises no
error, leaving the machine state unchanged; the character loop then proceeds
with the remaining characters of the word from that same state. -/
theorem c9_unknown_char_skipped (st : CWState) (c : Char)
    (h : morseDict c = none) :
    (morseDict c).getD "" = "" ∧ charStep st c = some ([], st) := by
  constructor
  · rw [h]
    rfl
  · unfold charStep
    rw [h]
    rfl

/-- Witness for C9 at the unknown character `#` from the idle state. -/
theorem c9_unknown_char_skipped_witness :
    (morseDict '#').getD "" = "" ∧
    charStep CWState.off '#' = some ([], CWState.off) :=
  c9_unknown_char_skipped CWState.off '#' rfl
